import Mathlib

/-!
# ml.mlp: mode/dimension reconciliation and the train/map protocol

A shallow embedding of `sources/regression/ml_mlp.cpp`.

* The object's fields become the record `mlp`.
* Every member function becomes a pure function from the state before the call
  to the state after it, paired with the list of observable events of the call
  (error-log lines, outlet messages and the calls made on the wrapped library,
  in program order).
* The wrapped learning library (GRT) and the host atoms are not part of the
  file: they are the fields of the record `GRT`, an arbitrary implementation of
  the interface the file calls.  Theorems quantify over every such
  implementation and name the part of the library contract they rely on.
* The enumeration constants declared in headers outside the file are the fields
  of `Consts`.
* C `int` is `Int`, `GRT::UINT` is `Nat`; the conversions the file performs
  between them are `toUInt32` and `toInt32`.
-/

namespace ml

/-! ## Machine integers -/

/-- Conversion `int -> GRT::UINT` (32-bit unsigned): reduction modulo `2^32`. -/
def toUInt32 (n : Int) : Nat := (n % 2 ^ 32).toNat

/-- Conversion `GRT::UINT -> int` (32-bit two's complement). -/
def toInt32 (u : Nat) : Int :=
  if u % 2 ^ 32 < 2 ^ 31 then ((u % 2 ^ 32 : Nat) : Int) else ((u % 2 ^ 32 : Nat) : Int) - 2 ^ 32

/-! ## Constants declared outside the file -/

/-- Enumeration constants the file uses but does not declare: the `data_type`
enumerators of the base header and the activation-function count of the wrapped
library.  Their numeric values are parameters. -/
structure Consts where
  LABELLED_CLASSIFICATION : Int
  LABELLED_REGRESSION : Int
  NUM_DATA_TYPES : Int
  NUMBER_OF_ACTIVATION_FUNCTIONS : Int

/-- Two enumerators of one enumeration that name different data types, both
below the count `NUM_DATA_TYPES`. -/
def Consts.WellFormed (k : Consts) : Prop :=
  k.LABELLED_CLASSIFICATION ≠ k.LABELLED_REGRESSION ∧
  0 ≤ k.LABELLED_CLASSIFICATION ∧ k.LABELLED_CLASSIFICATION < k.NUM_DATA_TYPES ∧
  0 ≤ k.LABELLED_REGRESSION ∧ k.LABELLED_REGRESSION < k.NUM_DATA_TYPES

/-- Modelled from the spec: `defaults::num_output_dimensions` of the header
`ml_defaults.h`, which is not among the sources.  The spec fixes the output
dimension count of classification at 1. -/
def defaults.num_output_dimensions : Nat := 1

/-- The layers of the perceptron, `mlp_layer`. -/
inductive mlp_layer where
  | LAYER_INPUT
  | LAYER_HIDDEN
  | LAYER_OUTPUT
  | MLP_NUM_LAYERS
  deriving DecidableEq, Repr

/-- The exception thrown by `get_grt_neuron_type`. -/
inductive grt_type_exception where
  | mk
  deriving DecidableEq, Repr

/-! ## Host atoms and symbols -/

/-- A host atom, as far as the file builds them: `SetInt` and `SetFloat`. -/
inductive t_atom (F : Type) where
  | A_INT (n : Int)
  | A_FLOAT (x : F)

/-- The outlet symbols handed out by the base class. -/
inductive t_symbol where
  | s_train
  | s_probs
  | s_error
  deriving DecidableEq, Repr

/-! ## The wrapped library -/

/-- The interface of the wrapped library and of the host conversions, as called
by the file.  A mutating member function returns the object after the call next
to its result; a `const` member function returns its result only.  Datasets are
passed to `train` by value and are therefore not returned. -/
structure GRT where
  /-- The type `GRT::RegressionData` -/
  RegressionData : Type
  /-- The type `GRT::ClassificationData` -/
  ClassificationData : Type
  /-- The type `GRT::MLP` -/
  MLP : Type
  /-- The type `double` -/
  Double : Type
  /-- The type `float` -/
  Float : Type
  /-- The type `std::string` of file paths -/
  Path : Type
  -- RegressionData
  regGetNumSamples : RegressionData → Nat
  getNumInputDimensions : RegressionData → Nat
  getNumTargetDimensions : RegressionData → Nat
  setInputAndTargetDimensions : RegressionData → Nat → Nat → Bool × RegressionData
  regLoadDatasetFromFile : RegressionData → Path → Bool × RegressionData
  -- ClassificationData
  clsGetNumSamples : ClassificationData → Nat
  getNumDimensions : ClassificationData → Nat
  getNumClasses : ClassificationData → Nat
  getClassLabels : ClassificationData → List Nat
  clsLoadDatasetFromFile : ClassificationData → Path → Bool × ClassificationData
  -- MLP
  init : MLP → Nat → Nat → Nat → Int → Int → Int → MLP
  trainClassification : MLP → ClassificationData → Bool × MLP
  trainRegression : MLP → RegressionData → Bool × MLP
  getTrained : MLP → Bool
  getNumInputNeurons : MLP → Nat
  getNumOutputNeurons : MLP → Nat
  predict : MLP → List Double → Bool × MLP
  getClassificationModeActive : MLP → Bool
  getRegressionModeActive : MLP → Bool
  getClassLikelihoods : MLP → List Double
  getPredictedClassLabel : MLP → Nat
  getRegressionData : MLP → List Double
  validateActivationFunction : MLP → Int → Bool
  setMinNumEpochs : MLP → Nat → Bool × MLP
  setMaxNumEpochs : MLP → Nat → Bool × MLP
  getMaxNumEpochs : MLP → Nat
  -- numeric conversions and the host accessor
  zero : Double
  toDouble : Float → Double
  toFloat : Double → Float
  GetAFloat : t_atom Float → Float

/-! ## Object state and observable events -/

/-- The fields of an `mlp` object: the base-class mode and datasets, the wrapped
trainer and the stored topology parameters. -/
structure mlp (g : GRT) where
  data_type : Int
  regression_data : g.RegressionData
  classification_data : g.ClassificationData
  grt_mlp : g.MLP
  num_hidden_neurons : Nat
  input_activation_function : Int
  hidden_activation_function : Int
  output_activation_function : Int

/-- The lines the file writes to the host error log, with their arguments. -/
inductive ErrorMsg where
  /-- Text "mode must be between 0 and %d" -/
  | mode_range (hi : Int)
  /-- Text "number of outputs must be greater than zero" -/
  | num_outputs_negative
  /-- Text "for classification mode, number of outputs must be 1, ... switch mode to %d" -/
  | classification_single_output (regression_mode : Int)
  /-- Text "unable to set input and target dimensions" -/
  | unable_to_set_dimensions
  /-- The text `e.what()` of a caught `grt_type_exception` -/
  | type_exception (e : grt_type_exception)
  /-- Text "activation function %d is invalid, hint should be between 0-%d" -/
  | invalid_activation_function (value hi : Int)
  /-- Text "no activation function for layer: ..." -/
  | no_activation_function_for_layer (layer : mlp_layer)
  /-- Text "unable to set min_epochs, hint: should be greater than 0" -/
  | unable_to_set_min_epochs
  /-- Text "no observations added, use add to add training data" -/
  | no_observations_added
  /-- Text "training failed" -/
  | training_failed
  /-- Text "model has not been trained, use train to train the model" -/
  | model_not_trained
  /-- Text "invalid input length, expected %d, got %d" -/
  | invalid_input_length (expected : Nat) (got : Int)
  /-- Text "unable to map input" -/
  | unable_to_map_input
  /-- Text "labels / likelihoods size mismatch" -/
  | size_mismatch
  /-- Text "invalid output dimensions: %d" -/
  | invalid_output_dimensions (n : Nat)
  deriving DecidableEq, Repr

/-- What a call does that an observer outside the object can see, in program
order: log lines, outlet messages, and the calls made on the wrapped library. -/
inductive Event (g : GRT) where
  /-- Call `flext::error` / `ml::error` -/
  | error (msg : ErrorMsg)
  /-- Call `post("activation function set to ...")` -/
  | post_activation_function (value : Int)
  /-- Call `ToOutAnything(outlet, symbol, atoms)` -/
  | ToOutAnything (outlet : Nat) (sym : t_symbol) (atoms : List (t_atom g.Float))
  /-- Call `ToOutInt(outlet, value)` -/
  | ToOutInt (outlet : Nat) (value : Int)
  /-- Call `ToOutList(outlet, atoms)` -/
  | ToOutList (outlet : Nat) (atoms : List (t_atom g.Float))
  /-- Call `regression_data.setInputAndTargetDimensions(i, t)` -/
  | call_setInputAndTargetDimensions (i t : Nat)
  /-- Call `grt_mlp.init(...)` -/
  | call_init (numInputs numHidden numOutputs : Nat) (inputAF hiddenAF outputAF : Int)
  /-- Call `grt_mlp.train(classification_data)` -/
  | call_train_classification (data : g.ClassificationData)
  /-- Call `grt_mlp.train(regression_data)` -/
  | call_train_regression (data : g.RegressionData)
  /-- Assignment `query[index] = GetAFloat(argv[index])` -/
  | read_input (index : Nat)
  /-- Call `grt_mlp.predict(query)` -/
  | call_predict (query : List g.Double)
  /-- Call `classification_data.loadDatasetFromFile(path)` -/
  | call_load_classification (path : g.Path)
  /-- Call `regression_data.loadDatasetFromFile(path)` -/
  | call_load_regression (path : g.Path)

/-- An event is an error-log line. -/
def Event.isError {g : GRT} : Event g → Bool
  | .error _ => true
  | _ => false

/-- An event is a call that asks the regression dataset to resize. -/
def Event.isResize {g : GRT} : Event g → Bool
  | .call_setInputAndTargetDimensions _ _ => true
  | _ => false

/-- An event is a call of the trainer's prediction routine. -/
def Event.isPredict {g : GRT} : Event g → Bool
  | .call_predict _ => true
  | _ => false

/-- An event is a read of an input atom into the query vector. -/
def Event.isRead {g : GRT} : Event g → Bool
  | .read_input _ => true
  | _ => false

/-- An event is a call on the trainer that initialises or trains it. -/
def Event.isTrainerCall {g : GRT} : Event g → Bool
  | .call_init _ _ _ _ _ _ => true
  | .call_train_classification _ => true
  | .call_train_regression _ => true
  | _ => false

/-! ## Base-class accessors -/

/-- Modelled from the spec: `ml::get_data_type` of the base class, which is not
among the sources.  It reads the stored mode. -/
def get_data_type {g : GRT} (s : mlp g) : Int := s.data_type

/-- Modelled from the spec: `ml::set_data_type` of the base class, which is not
among the sources.  It applies the new mode to the stored mode state and
touches nothing else. -/
def set_data_type {g : GRT} (s : mlp g) (type : Int) : mlp g :=
  { s with data_type := type }

/-! ## Attribute setters and getters -/

/-- Function `get_grt_neuron_type`: throws when `type` is not below the number of
activation functions, otherwise casts. -/
def get_grt_neuron_type (k : Consts) (type : Int) : Except grt_type_exception Int :=
  if type ≥ k.NUMBER_OF_ACTIVATION_FUNCTIONS then .error grt_type_exception.mk
  else .ok type

/-- Function `mlp::get_num_outputs`: writes through the reference `num_outputs`, whose
incoming value is the second argument; in a mode that is neither classification
nor regression the reference is left as it was. -/
def get_num_outputs (k : Consts) {g : GRT} (s : mlp g) (num_outputs : Int) : Int :=
  let data_type := get_data_type s
  if data_type = k.LABELLED_CLASSIFICATION then
    (defaults.num_output_dimensions : Int)
  else if data_type = k.LABELLED_REGRESSION then
    toInt32 (g.getNumTargetDimensions s.regression_data)
  else
    num_outputs

/-- Function `mlp::set_num_outputs`. -/
def set_num_outputs (k : Consts) {g : GRT} (s : mlp g) (num_outputs : Int) :
    mlp g × List (Event g) :=
  let curr_num_outputs := get_num_outputs k s 0
  if num_outputs = curr_num_outputs then
    (s, [])
  else
    let data_type := get_data_type s
    -- the error below is not followed by a return
    let log : List (Event g) :=
      if num_outputs < 0 then [Event.error ErrorMsg.num_outputs_negative] else []
    if data_type = k.LABELLED_CLASSIFICATION ∧ num_outputs > 1 then
      (s, log ++ [Event.error (ErrorMsg.classification_single_output k.LABELLED_REGRESSION)])
    else if data_type = k.LABELLED_REGRESSION then
      let i := g.getNumInputDimensions s.regression_data
      let t := toUInt32 num_outputs
      let r := g.setInputAndTargetDimensions s.regression_data i t
      let s1 : mlp g := { s with regression_data := r.2 }
      if r.1 = false then
        (s1, log ++ [Event.call_setInputAndTargetDimensions i t,
                     Event.error ErrorMsg.unable_to_set_dimensions])
      else
        (s1, log ++ [Event.call_setInputAndTargetDimensions i t])
    else
      (s, log)

/-- Function `mlp::set_mode`. -/
def set_mode (k : Consts) {g : GRT} (s : mlp g) (mode : Int) : mlp g × List (Event g) :=
  if mode > k.NUM_DATA_TYPES then
    (s, [Event.error (ErrorMsg.mode_range (k.NUM_DATA_TYPES - 1))])
  else
    let r : mlp g × List (Event g) :=
      if mode = k.LABELLED_CLASSIFICATION then set_num_outputs k s 1 else (s, [])
    (set_data_type r.1 mode, r.2)

/-- Function `mlp::get_mode`. -/
def get_mode {g : GRT} (s : mlp g) : Int := get_data_type s

/-- Function `mlp::set_num_hidden`. -/
def set_num_hidden {g : GRT} (s : mlp g) (num_hidden : Int) : mlp g :=
  { s with num_hidden_neurons := toUInt32 num_hidden }

/-- Function `mlp::set_min_epochs`. -/
def set_min_epochs {g : GRT} (s : mlp g) (min_epochs : Int) : mlp g × List (Event g) :=
  let r := g.setMinNumEpochs s.grt_mlp (toUInt32 min_epochs)
  let s1 : mlp g := { s with grt_mlp := r.2 }
  if r.1 = false then (s1, [Event.error ErrorMsg.unable_to_set_min_epochs]) else (s1, [])

/-- Function `mlp::set_max_epochs`: the result of the library call is dropped. -/
def set_max_epochs {g : GRT} (s : mlp g) (max_epochs : Int) : mlp g :=
  { s with grt_mlp := (g.setMaxNumEpochs s.grt_mlp (toUInt32 max_epochs)).2 }

/-- Function `mlp::get_min_epochs`: the body reads `grt_mlp.getMaxNumEpochs()`. -/
def get_min_epochs {g : GRT} (s : mlp g) : Int := toInt32 (g.getMaxNumEpochs s.grt_mlp)

/-- Function `mlp::get_max_epochs`. -/
def get_max_epochs {g : GRT} (s : mlp g) : Int := toInt32 (g.getMaxNumEpochs s.grt_mlp)

/-- Function `mlp::set_activation_function`. -/
def set_activation_function (k : Consts) {g : GRT} (s : mlp g) (activation_function : Int)
    (layer : mlp_layer) : mlp g × List (Event g) :=
  match get_grt_neuron_type k activation_function with
  | .error e => (s, [Event.error (ErrorMsg.type_exception e)])
  | .ok activation_function_ =>
    if g.validateActivationFunction s.grt_mlp activation_function_ = false then
      (s, [Event.error (ErrorMsg.invalid_activation_function activation_function
                          (k.NUMBER_OF_ACTIVATION_FUNCTIONS - 1))])
    else
      match layer with
      | .LAYER_INPUT =>
        ({ s with input_activation_function := activation_function_ },
          [Event.post_activation_function activation_function_])
      | .LAYER_HIDDEN =>
        ({ s with hidden_activation_function := activation_function_ },
          [Event.post_activation_function activation_function_])
      | .LAYER_OUTPUT =>
        ({ s with output_activation_function := activation_function_ },
          [Event.post_activation_function activation_function_])
      | .MLP_NUM_LAYERS =>
        (s, [Event.error (ErrorMsg.no_activation_function_for_layer layer)])

/-- Function `mlp::set_input_activation_function`. -/
def set_input_activation_function (k : Consts) {g : GRT} (s : mlp g) (activation_function : Int) :
    mlp g × List (Event g) :=
  set_activation_function k s activation_function .LAYER_INPUT

/-- Function `mlp::set_hidden_activation_function`. -/
def set_hidden_activation_function (k : Consts) {g : GRT} (s : mlp g) (activation_function : Int) :
    mlp g × List (Event g) :=
  set_activation_function k s activation_function .LAYER_HIDDEN

/-- Function `mlp::set_output_activation_function`. -/
def set_output_activation_function (k : Consts) {g : GRT} (s : mlp g) (activation_function : Int) :
    mlp g × List (Event g) :=
  set_activation_function k s activation_function .LAYER_OUTPUT

/-! ## Methods -/

/-- The sample count both `train` and `map` compute first: the classification
dataset's in classification mode, the regression dataset's in every other
mode. -/
def numSamples (k : Consts) {g : GRT} (s : mlp g) : Nat :=
  if get_data_type s = k.LABELLED_CLASSIFICATION then g.clsGetNumSamples s.classification_data
  else g.regGetNumSamples s.regression_data

/-- Atom built by `SetInt(a, success)` from a `bool`. -/
def boolAtom (F : Type) (b : Bool) : t_atom F := t_atom.A_INT (if b then 1 else 0)

/-- Function `mlp::train`. -/
def train (k : Consts) {g : GRT} (s : mlp g) : mlp g × List (Event g) :=
  let data_type := get_data_type s
  if numSamples k s = 0 then
    (s, [Event.error ErrorMsg.no_observations_added])
  else
    -- (success, trainer after the branch, calls made in the branch)
    let r : Bool × g.MLP × List (Event g) :=
      if data_type = k.LABELLED_CLASSIFICATION then
        let ni := g.getNumDimensions s.classification_data
        let no := g.getNumClasses s.classification_data
        let m := g.init s.grt_mlp ni s.num_hidden_neurons no s.input_activation_function
                  s.hidden_activation_function s.output_activation_function
        let t := g.trainClassification m s.classification_data
        (t.1, t.2,
          [Event.call_init ni s.num_hidden_neurons no s.input_activation_function
             s.hidden_activation_function s.output_activation_function,
           Event.call_train_classification s.classification_data])
      else if data_type = k.LABELLED_REGRESSION then
        let ni := g.getNumInputDimensions s.regression_data
        let no := g.getNumTargetDimensions s.regression_data
        let m := g.init s.grt_mlp ni s.num_hidden_neurons no s.input_activation_function
                  s.hidden_activation_function s.output_activation_function
        let t := g.trainRegression m s.regression_data
        (t.1, t.2,
          [Event.call_init ni s.num_hidden_neurons no s.input_activation_function
             s.hidden_activation_function s.output_activation_function,
           Event.call_train_regression s.regression_data])
      else
        (false, s.grt_mlp, [])
    let success := r.1
    let log : List (Event g) :=
      if success = false then [Event.error ErrorMsg.training_failed] else []
    ({ s with grt_mlp := r.2.1 },
      r.2.2 ++ log ++ [Event.ToOutAnything 1 t_symbol.s_train [boolAtom g.Float success]])

/-- The loop of `mlp::map`,
`for (index = 0; index < (uint32_t)argc; ++index) query[index] = GetAFloat(argv[index])`,
with `n` iterations left.  The result is `none` when an iteration reads past
the end of `argv` or writes past the end of `query` (undefined behaviour). -/
def map_loop (g : GRT) (argv : List (t_atom g.Float)) :
    Nat → Nat → List g.Double → Option (List g.Double)
  | 0, _, query => some query
  | n + 1, index, query =>
    match argv.get? index with
    | none => none
    | some a =>
      if index < query.length then
        map_loop g argv n (index + 1) (query.set index (g.toDouble (g.GetAFloat a)))
      else none

/-- The list `probs` built by `mlp::map`: the label and the likelihood of every
class, alternating. -/
def probs (g : GRT) : List Nat → List g.Double → List (t_atom g.Float)
  | label :: labels, likelihood :: likelihoods =>
    t_atom.A_INT (toInt32 label) :: t_atom.A_FLOAT (g.toFloat likelihood) ::
      probs g labels likelihoods
  | _, _ => []

/-- The output formatting of `mlp::map` after a successful prediction, on the
trainer `m` the prediction left behind. -/
def map_output {g : GRT} (s : mlp g) (m : g.MLP) : List (Event g) :=
  if g.getClassificationModeActive m then
    let likelihoods := g.getClassLikelihoods m
    let labels := g.getClassLabels s.classification_data
    let classification := g.getPredictedClassLabel m
    let out : List (Event g) :=
      if likelihoods.length ≠ labels.length then [Event.error ErrorMsg.size_mismatch]
      else [Event.ToOutAnything 1 t_symbol.s_probs (probs g labels likelihoods)]
    out ++ [Event.ToOutInt 0 (toInt32 classification)]
  else if g.getRegressionModeActive m then
    let regression_data := g.getRegressionData m
    let numOutputDimensions := regression_data.length
    if numOutputDimensions ≠ g.getNumOutputNeurons m then
      [Event.error (ErrorMsg.invalid_output_dimensions numOutputDimensions)]
    else
      [Event.ToOutList 0 (regression_data.map (fun value => t_atom.A_FLOAT (g.toFloat value)))]
  else []

/-- Function `mlp::map`, called with the `argc` atoms `argv`.  The result is
`none` when the copy loop leaves the bounds of the query vector. -/
def map (k : Consts) {g : GRT} (s : mlp g) (argv : List (t_atom g.Float)) :
    Option (mlp g × List (Event g)) :=
  let argc : Int := argv.length
  if numSamples k s = 0 then
    some (s, [Event.error ErrorMsg.no_observations_added])
  else if g.getTrained s.grt_mlp = false then
    some (s, [Event.error ErrorMsg.model_not_trained])
  else
    let numInputNeurons := g.getNumInputNeurons s.grt_mlp
    let query : List g.Double := List.replicate numInputNeurons g.zero
    -- the error below is not followed by a return
    let log : List (Event g) :=
      if argc < 0 ∨ toUInt32 argc ≠ numInputNeurons then
        [Event.error (ErrorMsg.invalid_input_length numInputNeurons argc)]
      else []
    match map_loop g argv (toUInt32 argc) 0 query with
    | none => none
    | some query =>
      let reads : List (Event g) := (List.range (toUInt32 argc)).map Event.read_input
      let r := g.predict s.grt_mlp query
      let s1 : mlp g := { s with grt_mlp := r.2 }
      if r.1 = false then
        some (s1, log ++ reads ++ [Event.call_predict query,
                                   Event.error ErrorMsg.unable_to_map_input])
      else
        some (s1, log ++ reads ++ [Event.call_predict query] ++ map_output s r.2)

/-- Function `mlp::read_specialised_dataset`. -/
def read_specialised_dataset (k : Consts) {g : GRT} (s : mlp g) (path : g.Path) :
    Bool × mlp g × List (Event g) :=
  let c := g.clsLoadDatasetFromFile s.classification_data path
  let s1 : mlp g := { s with classification_data := c.2 }
  if c.1 then
    (c.1, set_data_type s1 k.LABELLED_CLASSIFICATION, [Event.call_load_classification path])
  else
    let r := g.regLoadDatasetFromFile s1.regression_data path
    let s2 : mlp g := { s1 with regression_data := r.2 }
    if r.1 then
      (r.1, set_data_type s2 k.LABELLED_REGRESSION,
        [Event.call_load_classification path, Event.call_load_regression path])
    else
      (r.1, s2, [Event.call_load_classification path, Event.call_load_regression path])

/-! ## Vocabulary of the specification -/

/-- The dataset matching the active mode holds no observation. -/
def activeDatasetEmpty (k : Consts) {g : GRT} (s : mlp g) : Prop :=
  (s.data_type = k.LABELLED_CLASSIFICATION ∧ g.clsGetNumSamples s.classification_data = 0) ∨
  (s.data_type = k.LABELLED_REGRESSION ∧ g.regGetNumSamples s.regression_data = 0)

/-- The dataset matching the active mode holds at least one observation. -/
def activeDatasetNonEmpty (k : Consts) {g : GRT} (s : mlp g) : Prop :=
  (s.data_type = k.LABELLED_CLASSIFICATION ∧ g.clsGetNumSamples s.classification_data ≠ 0) ∨
  (s.data_type = k.LABELLED_REGRESSION ∧ g.regGetNumSamples s.regression_data ≠ 0)

/-- The part of the regression dataset's contract the reconciler relies on: an
accepted resize installs the requested dimension counts, a refused one leaves
both counts as they were. -/
def GRT.ResizeContract (g : GRT) : Prop :=
  ∀ (r : g.RegressionData) (i t : Nat),
    ((g.setInputAndTargetDimensions r i t).1 = true →
      g.getNumInputDimensions (g.setInputAndTargetDimensions r i t).2 = i ∧
      g.getNumTargetDimensions (g.setInputAndTargetDimensions r i t).2 = t) ∧
    ((g.setInputAndTargetDimensions r i t).1 = false →
      g.getNumInputDimensions (g.setInputAndTargetDimensions r i t).2 =
        g.getNumInputDimensions r ∧
      g.getNumTargetDimensions (g.setInputAndTargetDimensions r i t).2 =
        g.getNumTargetDimensions r)

/-- The regression dataset refuses the resize that `set_num_outputs(n)` asks
for: the requested count differs from the current one, so the resize is
attempted, and the dataset answers `false`. -/
def resizeRefused (k : Consts) {g : GRT} (s : mlp g) (n : Int) : Prop :=
  n ≠ get_num_outputs k s 0 ∧
  (g.setInputAndTargetDimensions s.regression_data
    (g.getNumInputDimensions s.regression_data) (toUInt32 n)).1 = false

/-! ## A small implementation of the library interface

Used to instantiate the theorems at concrete inputs.  It follows the wrapped
library where the file depends on it: a resize to a zero dimension is refused,
every resize clears the stored samples, and the activation functions are
`0 .. 3`. -/

/-- A regression dataset reduced to its dimension counts and sample count. -/
structure ToyRegressionData where
  numInputDimensions : Nat
  numTargetDimensions : Nat
  numSamples : Nat
  deriving DecidableEq, Repr

/-- A classification dataset reduced to its dimension count, class labels and
sample count. -/
structure ToyClassificationData where
  numDimensions : Nat
  classLabels : List Nat
  numSamples : Nat
  deriving DecidableEq, Repr

/-- A trainer reduced to the values the file reads back from it. -/
structure ToyMLP where
  trained : Bool
  classificationMode : Bool
  numInputNeurons : Nat
  numOutputNeurons : Nat
  minNumEpochs : Nat
  maxNumEpochs : Nat
  classLikelihoods : List Int
  predictedClassLabel : Nat
  regressionData : List Int
  deriving DecidableEq, Repr

/-- The implementation: numbers are integers, files `0` and `1` hold a
classification and a regression dataset. -/
def toyGRT : GRT where
  RegressionData := ToyRegressionData
  ClassificationData := ToyClassificationData
  MLP := ToyMLP
  Double := Int
  Float := Int
  Path := Nat
  regGetNumSamples := fun r => r.numSamples
  getNumInputDimensions := fun r => r.numInputDimensions
  getNumTargetDimensions := fun r => r.numTargetDimensions
  setInputAndTargetDimensions := fun r i t =>
    if 0 < i ∧ 0 < t then (true, ⟨i, t, 0⟩)
    else (false, ⟨r.numInputDimensions, r.numTargetDimensions, 0⟩)
  regLoadDatasetFromFile := fun r path => if path = 1 then (true, ⟨2, 2, 5⟩) else (false, r)
  clsGetNumSamples := fun c => c.numSamples
  getNumDimensions := fun c => c.numDimensions
  getNumClasses := fun c => c.classLabels.length
  getClassLabels := fun c => c.classLabels
  clsLoadDatasetFromFile := fun c path => if path = 0 then (true, ⟨2, [1, 2], 5⟩) else (false, c)
  init := fun m ni _ no _ _ _ =>
    { m with trained := false, numInputNeurons := ni, numOutputNeurons := no }
  trainClassification := fun m c =>
    if c.classLabels.length < 2 then (false, m)
    else (true, { m with trained := true, classificationMode := true,
                         classLikelihoods := c.classLabels.map (fun _ => 0) })
  trainRegression := fun m _ =>
    (true, { m with trained := true, classificationMode := false })
  getTrained := fun m => m.trained
  getNumInputNeurons := fun m => m.numInputNeurons
  getNumOutputNeurons := fun m => m.numOutputNeurons
  predict := fun m query =>
    if query.length = m.numInputNeurons then
      (true, { m with regressionData := List.replicate m.numOutputNeurons query.sum })
    else (false, m)
  getClassificationModeActive := fun m => m.classificationMode
  getRegressionModeActive := fun m => !m.classificationMode
  getClassLikelihoods := fun m => m.classLikelihoods
  getPredictedClassLabel := fun m => m.predictedClassLabel
  getRegressionData := fun m => m.regressionData
  validateActivationFunction := fun _ v => decide (0 ≤ v ∧ v < 4)
  setMinNumEpochs := fun m n => if 0 < n then (true, { m with minNumEpochs := n }) else (false, m)
  setMaxNumEpochs := fun m n => if 0 < n then (true, { m with maxNumEpochs := n }) else (false, m)
  getMaxNumEpochs := fun m => m.maxNumEpochs
  zero := 0
  toDouble := fun x => x
  toFloat := fun x => x
  GetAFloat := fun a => match a with
    | t_atom.A_INT n => n
    | t_atom.A_FLOAT x => x

/-- The enumeration values used with `toyGRT`: classification 0, regression 1,
four data types, four activation functions. -/
def toyConsts : Consts := ⟨0, 1, 4, 4⟩

/-- An untrained trainer. -/
def toyUntrained : ToyMLP := ⟨false, false, 0, 0, 10, 100, [], 0, []⟩

/-- A trainer trained for regression from two inputs to one output. -/
def toyTrained : ToyMLP := ⟨true, false, 2, 1, 10, 100, [], 0, []⟩

/-- A state in regression mode with an empty 2-in 1-out regression dataset. -/
def toyRegressionState : mlp toyGRT :=
  ⟨1, ⟨2, 1, 0⟩, ⟨2, [], 0⟩, toyUntrained, 10, 0, 0, 0⟩

/-- A state in regression mode with three 2-in 3-out observations. -/
def toyRegressionFilled : mlp toyGRT :=
  ⟨1, ⟨2, 3, 3⟩, ⟨2, [], 0⟩, toyUntrained, 10, 0, 1, 0⟩

/-- A state in classification mode with four observations of two classes. -/
def toyClassificationFilled : mlp toyGRT :=
  ⟨0, ⟨2, 3, 0⟩, ⟨2, [1, 2], 4⟩, toyUntrained, 10, 0, 1, 0⟩

/-- A state in regression mode with a trained trainer and one observation. -/
def toyTrainedState : mlp toyGRT :=
  ⟨1, ⟨2, 1, 1⟩, ⟨2, [], 0⟩, toyTrained, 10, 0, 0, 0⟩

/-- An input of a single atom, the float 7. -/
def toyInput : List (t_atom toyGRT.Float) := [t_atom.A_FLOAT (7 : Int)]

/-- A state in classification mode with four observations of a single class,
on which the trainer fails. -/
def toyClassificationOneClass : mlp toyGRT :=
  ⟨0, ⟨2, 3, 0⟩, ⟨2, [1], 4⟩, toyUntrained, 10, 0, 1, 0⟩

/-! ## Helper lemmas -/

theorem toyConsts_wellFormed : toyConsts.WellFormed := by
  unfold Consts.WellFormed toyConsts
  decide

theorem toyGRT_resizeContract : toyGRT.ResizeContract := by
  intro r i t
  simp only [toyGRT]
  by_cases h : 0 < i ∧ 0 < t <;> simp [h]

theorem toUInt32_of_nonneg (n : Int) (h0 : 0 ≤ n) (h1 : n < 2 ^ 32) :
    (toUInt32 n : Int) = n := by
  unfold toUInt32
  rw [Int.emod_eq_of_lt h0 h1]
  exact Int.toNat_of_nonneg h0

theorem toInt32_of_lt (u : Nat) (h : u < 2 ^ 31) : toInt32 u = u := by
  unfold toInt32
  have h1 : u % 2 ^ 32 = u := Nat.mod_eq_of_lt (by omega)
  rw [h1, if_pos h]

theorem numSamples_of_empty (k : Consts) {g : GRT} (s : mlp g) (hk : k.WellFormed)
    (h : activeDatasetEmpty k s) : numSamples k s = 0 := by
  obtain ⟨hd, _, _, _, _⟩ := hk
  rcases h with ⟨hm, h0⟩ | ⟨hm, h0⟩
  · simp [numSamples, get_data_type, hm, h0]
  · have hne : ¬ k.LABELLED_REGRESSION = k.LABELLED_CLASSIFICATION := fun h => hd h.symm
    simp [numSamples, get_data_type, hm, hne, h0]

theorem numSamples_of_nonEmpty (k : Consts) {g : GRT} (s : mlp g) (hk : k.WellFormed)
    (h : activeDatasetNonEmpty k s) : numSamples k s ≠ 0 := by
  obtain ⟨hd, _, _, _, _⟩ := hk
  rcases h with ⟨hm, h0⟩ | ⟨hm, h0⟩
  · simpa [numSamples, get_data_type, hm] using h0
  · have hne : ¬ k.LABELLED_REGRESSION = k.LABELLED_CLASSIFICATION := fun h => hd h.symm
    simpa [numSamples, get_data_type, hm, hne] using h0

theorem map_loop_in_bounds (g : GRT) (argv : List (t_atom g.Float)) (n : Nat) :
    ∀ (index : Nat) (query : List g.Double), index + n ≤ argv.length →
      index + n ≤ query.length →
      ∃ q, map_loop g argv n index query = some q ∧ q.length = query.length := by
  induction n with
  | zero => intro index query _ _; exact ⟨query, rfl, rfl⟩
  | succ n ih =>
    intro index query ha hq
    have hlt : index < argv.length := by omega
    have hget : argv.get? index = some (argv.get ⟨index, hlt⟩) := List.get?_eq_get hlt
    have hlq : index < query.length := by omega
    obtain ⟨q, hq1, hq2⟩ := ih (index + 1)
      (query.set index (g.toDouble (g.GetAFloat (argv.get ⟨index, hlt⟩))))
      (by omega) (by rw [List.length_set]; omega)
    refine ⟨q, ?_, by rw [hq2, List.length_set]⟩
    simp only [map_loop, hget, hlq, if_true]
    exact hq1

/-! ## Theorems -/

/-- C1 (the code departs from the claim): `set_mode` does not reject every mode
outside `[0, NUM_DATA_TYPES)`.  A negative mode and the mode `NUM_DATA_TYPES`
itself pass the guard `mode > NUM_DATA_TYPES`: no error is logged and the
stored mode becomes the out-of-range value. -/
theorem set_mode_lets_out_of_range_through (k : Consts) {g : GRT} (s : mlp g) (mode : Int)
    (hk : k.WellFormed) (hmode : mode < 0 ∨ mode = k.NUM_DATA_TYPES) :
    (set_mode k s mode).2 = [] ∧ get_mode (set_mode k s mode).1 = mode ∧
      (set_mode k s mode).1 = set_data_type s mode := by
  obtain ⟨_, h0, h1, _, _⟩ := hk
  have hgt : ¬ mode > k.NUM_DATA_TYPES := by omega
  have hne : mode ≠ k.LABELLED_CLASSIFICATION := by omega
  simp [set_mode, hgt, hne, get_mode, get_data_type, set_data_type]

/-- Witness for C1: the modes 4 (the count of data types) and -1 are stored
without an error by a state that was in regression mode. -/
theorem set_mode_lets_out_of_range_through_witness :
    toyConsts.WellFormed ∧ ((4 : Int) < 0 ∨ (4 : Int) = toyConsts.NUM_DATA_TYPES) ∧
      ((set_mode toyConsts toyRegressionState 4).2 = [] ∧
        get_mode (set_mode toyConsts toyRegressionState 4).1 = 4 ∧
        (set_mode toyConsts toyRegressionState 4).1 = set_data_type toyRegressionState 4) :=
  ⟨toyConsts_wellFormed, Or.inr rfl,
    set_mode_lets_out_of_range_through toyConsts toyRegressionState 4 toyConsts_wellFormed
      (Or.inr rfl)⟩

/-- C2: from every state, `set_mode(LABELLED_CLASSIFICATION)` leaves the stored
mode at classification, and `get_num_outputs` then writes exactly 1 whatever
value its reference argument held. -/
theorem set_mode_classification (k : Consts) {g : GRT} (s : mlp g) (hk : k.WellFormed) :
    get_mode (set_mode k s k.LABELLED_CLASSIFICATION).1 = k.LABELLED_CLASSIFICATION ∧
      ∀ x : Int, get_num_outputs k (set_mode k s k.LABELLED_CLASSIFICATION).1 x = 1 := by
  obtain ⟨_, _, h1, _, _⟩ := hk
  have hgt : ¬ k.LABELLED_CLASSIFICATION > k.NUM_DATA_TYPES := by omega
  simp [set_mode, hgt, get_mode, get_data_type, set_data_type, get_num_outputs,
    defaults.num_output_dimensions]

/-- Witness for C2: a regression state with three target dimensions. -/
theorem set_mode_classification_witness :
    toyConsts.WellFormed ∧
      (get_mode (set_mode toyConsts toyRegressionFilled toyConsts.LABELLED_CLASSIFICATION).1 =
          toyConsts.LABELLED_CLASSIFICATION ∧
        ∀ x : Int, get_num_outputs toyConsts
          (set_mode toyConsts toyRegressionFilled toyConsts.LABELLED_CLASSIFICATION).1 x = 1) :=
  ⟨toyConsts_wellFormed, set_mode_classification toyConsts toyRegressionFilled toyConsts_wellFormed⟩

/-- C3 (the code departs from the claim): in regression mode a negative
`num_outputs` that differs from the current count is logged as an error, but the
call does not stop there: the resize of the regression dataset is attempted
with the count converted to unsigned, and the dataset the library returns is
stored. -/
theorem set_num_outputs_negative_resizes (k : Consts) {g : GRT} (s : mlp g) (n : Int)
    (hk : k.WellFormed) (hmode : s.data_type = k.LABELLED_REGRESSION) (hn : n < 0)
    (hcur : n ≠ toInt32 (g.getNumTargetDimensions s.regression_data)) :
    Event.error ErrorMsg.num_outputs_negative ∈ (set_num_outputs k s n).2 ∧
      Event.call_setInputAndTargetDimensions (g.getNumInputDimensions s.regression_data)
          (toUInt32 n) ∈ (set_num_outputs k s n).2 ∧
      (set_num_outputs k s n).1.regression_data =
        (g.setInputAndTargetDimensions s.regression_data
          (g.getNumInputDimensions s.regression_data) (toUInt32 n)).2 := by
  obtain ⟨hd, _, _, _, _⟩ := hk
  have hne : ¬ k.LABELLED_REGRESSION = k.LABELLED_CLASSIFICATION := fun h => hd h.symm
  have hcur2 : ¬ n = get_num_outputs k s 0 := by
    simpa [get_num_outputs, get_data_type, hmode, hne] using hcur
  unfold set_num_outputs
  simp only [hcur2, if_false, get_data_type, hmode, hne, false_and, hn, if_true]
  split <;> simp

/-- Witness for C3: `set_num_outputs(-1)` on a 2-in 1-out regression dataset
asks for `2^32 - 1` target dimensions, and the dataset is resized to them. -/
theorem set_num_outputs_negative_resizes_witness :
    (toyConsts.WellFormed ∧ toyRegressionState.data_type = toyConsts.LABELLED_REGRESSION ∧
      (-1 : Int) < 0 ∧
      (-1 : Int) ≠ toInt32 (toyGRT.getNumTargetDimensions toyRegressionState.regression_data)) ∧
    (Event.error ErrorMsg.num_outputs_negative ∈ (set_num_outputs toyConsts toyRegressionState (-1)).2 ∧
      Event.call_setInputAndTargetDimensions
          (toyGRT.getNumInputDimensions toyRegressionState.regression_data) (toUInt32 (-1)) ∈
        (set_num_outputs toyConsts toyRegressionState (-1)).2 ∧
      (set_num_outputs toyConsts toyRegressionState (-1)).1.regression_data =
        (toyGRT.setInputAndTargetDimensions toyRegressionState.regression_data
          (toyGRT.getNumInputDimensions toyRegressionState.regression_data) (toUInt32 (-1))).2) ∧
    (set_num_outputs toyConsts toyRegressionState (-1)).1.regression_data =
      (⟨2, 4294967295, 0⟩ : ToyRegressionData) :=
  ⟨⟨toyConsts_wellFormed, rfl, by decide, by decide⟩,
    set_num_outputs_negative_resizes toyConsts toyRegressionState (-1) toyConsts_wellFormed rfl
      (by decide) (by decide),
    rfl⟩

/-- C4: in regression mode, for every `int` `n >= 1` (the dataset's current
target count being a `UINT`), `set_num_outputs(n)` leaves the regression
dataset's input-dimension count unchanged and makes its target-dimension count
`n`, so that `get_num_outputs` yields `n`, without logging an error; unless the
dataset refuses the resize, in which case the error is logged and both counts
are unchanged.  The dataset is assumed to honour `ResizeContract`. -/
theorem set_num_outputs_regression (k : Consts) {g : GRT} (s : mlp g) (n : Int)
    (hk : k.WellFormed) (hc : g.ResizeContract)
    (hmode : s.data_type = k.LABELLED_REGRESSION) (hn : 1 ≤ n) (hint : n < 2 ^ 31)
    (hu : g.getNumTargetDimensions s.regression_data < 2 ^ 32) :
    (¬ resizeRefused k s n →
      g.getNumInputDimensions (set_num_outputs k s n).1.regression_data =
          g.getNumInputDimensions s.regression_data ∧
        (g.getNumTargetDimensions (set_num_outputs k s n).1.regression_data : Int) = n ∧
        (∀ x : Int, get_num_outputs k (set_num_outputs k s n).1 x = n) ∧
        (set_num_outputs k s n).2.any Event.isError = false) ∧
    (resizeRefused k s n →
      Event.error ErrorMsg.unable_to_set_dimensions ∈ (set_num_outputs k s n).2 ∧
        g.getNumInputDimensions (set_num_outputs k s n).1.regression_data =
          g.getNumInputDimensions s.regression_data ∧
        g.getNumTargetDimensions (set_num_outputs k s n).1.regression_data =
          g.getNumTargetDimensions s.regression_data) := by
  obtain ⟨hd, _, _, _, _⟩ := hk
  have hne : ¬ k.LABELLED_REGRESSION = k.LABELLED_CLASSIFICATION := fun h => hd h.symm
  have hcurr : get_num_outputs k s 0 = toInt32 (g.getNumTargetDimensions s.regression_data) := by
    simp [get_num_outputs, get_data_type, hmode, hne]
  have hneg : ¬ n < 0 := by omega
  have hcast : (toUInt32 n : Int) = n := toUInt32_of_nonneg n (by omega) (by omega)
  have hlt : toUInt32 n < 2 ^ 31 := by
    have : (toUInt32 n : Int) < 2 ^ 31 := by rw [hcast]; exact hint
    exact_mod_cast this
  obtain ⟨hacc, hrej⟩ := hc s.regression_data (g.getNumInputDimensions s.regression_data)
    (toUInt32 n)
  by_cases hsame : n = get_num_outputs k s 0
  · -- nothing to do: the dataset already has n target dimensions
    have hstep : set_num_outputs k s n = (s, []) := by
      unfold set_num_outputs
      simp [hsame]
    have htd : (g.getNumTargetDimensions s.regression_data : Int) = n := by
      rw [hsame, hcurr]
      unfold toInt32
      have hmod : g.getNumTargetDimensions s.regression_data % 2 ^ 32 =
          g.getNumTargetDimensions s.regression_data := Nat.mod_eq_of_lt hu
      rw [hsame, hcurr] at hn
      unfold toInt32 at hn
      rw [hmod] at hn ⊢
      split
      · rfl
      · rename_i hge
        rw [if_neg hge] at hn
        omega
    refine ⟨fun _ => ?_, fun href => absurd hsame href.1⟩
    rw [hstep]
    refine ⟨rfl, htd, fun x => ?_, rfl⟩
    simp only [get_num_outputs, get_data_type, hmode, hne, if_false, if_true]
    rw [← hcurr, ← hsame]
  · by_cases hres : (g.setInputAndTargetDimensions s.regression_data
        (g.getNumInputDimensions s.regression_data) (toUInt32 n)).1 = false
    · -- the dataset refuses
      have hstep : set_num_outputs k s n =
          ({ s with regression_data := (g.setInputAndTargetDimensions s.regression_data
              (g.getNumInputDimensions s.regression_data) (toUInt32 n)).2 },
            [Event.call_setInputAndTargetDimensions (g.getNumInputDimensions s.regression_data)
              (toUInt32 n), Event.error ErrorMsg.unable_to_set_dimensions]) := by
        unfold set_num_outputs
        simp [hsame, get_data_type, hmode, hne, hneg, hres]
      refine ⟨fun hnot => absurd ⟨hsame, hres⟩ hnot, fun _ => ?_⟩
      rw [hstep]
      obtain ⟨h1, h2⟩ := hrej hres
      exact ⟨by simp, h1, h2⟩
    · -- the dataset accepts
      have hres2 : (g.setInputAndTargetDimensions s.regression_data
          (g.getNumInputDimensions s.regression_data) (toUInt32 n)).1 = true := by
        simpa using hres
      have hstep : set_num_outputs k s n =
          ({ s with regression_data := (g.setInputAndTargetDimensions s.regression_data
              (g.getNumInputDimensions s.regression_data) (toUInt32 n)).2 },
            [Event.call_setInputAndTargetDimensions (g.getNumInputDimensions s.regression_data)
              (toUInt32 n)]) := by
        unfold set_num_outputs
        simp [hsame, get_data_type, hmode, hne, hneg, hres2]
      refine ⟨fun _ => ?_, fun href => absurd href.2 hres⟩
      rw [hstep]
      obtain ⟨h1, h2⟩ := hacc hres2
      refine ⟨h1, ?_, fun x => ?_, by simp [Event.isError]⟩
      · simp only [h2]
        exact hcast
      · simp only [get_num_outputs, get_data_type, hmode, hne, if_false, if_true, h2]
        rw [toInt32_of_lt _ hlt]
        exact hcast

/-- Witness for C4: three target dimensions on a 2-in 1-out regression dataset;
the resize is accepted. -/
theorem set_num_outputs_regression_witness :
    (toyConsts.WellFormed ∧ toyGRT.ResizeContract ∧
      toyRegressionState.data_type = toyConsts.LABELLED_REGRESSION ∧ (1 : Int) ≤ 3 ∧
      (3 : Int) < 2 ^ 31 ∧
      toyGRT.getNumTargetDimensions toyRegressionState.regression_data < 2 ^ 32) ∧
    ¬ resizeRefused toyConsts toyRegressionState 3 ∧
    toyGRT.getNumInputDimensions (set_num_outputs toyConsts toyRegressionState 3).1.regression_data =
      toyGRT.getNumInputDimensions toyRegressionState.regression_data ∧
    (toyGRT.getNumTargetDimensions
      (set_num_outputs toyConsts toyRegressionState 3).1.regression_data : Int) = 3 :=
  have hnot : ¬ resizeRefused toyConsts toyRegressionState 3 := fun h => by
    have h2 := h.2
    revert h2
    decide
  have hw := (set_num_outputs_regression toyConsts toyRegressionState 3 toyConsts_wellFormed
    toyGRT_resizeContract rfl (by decide) (by decide) (by decide)).1 hnot
  ⟨⟨toyConsts_wellFormed, toyGRT_resizeContract, rfl, by decide, by decide, by decide⟩,
    hnot, hw.1, hw.2.1⟩

/-- C5: in classification mode every `n > 1` is rejected by `set_num_outputs`:
the one event of the call is the error that points to the regression mode, and
the state after the call is the state before it (mode, both datasets, trainer,
and with them the count `get_num_outputs` reports). -/
theorem set_num_outputs_classification_rejects (k : Consts) {g : GRT} (s : mlp g) (n : Int)
    (hmode : s.data_type = k.LABELLED_CLASSIFICATION) (hn : n > 1) :
    set_num_outputs k s n =
        (s, [Event.error (ErrorMsg.classification_single_output k.LABELLED_REGRESSION)]) ∧
      ∀ x : Int, get_num_outputs k (set_num_outputs k s n).1 x = get_num_outputs k s x := by
  have hcurr : get_num_outputs k s 0 = 1 := by
    simp [get_num_outputs, get_data_type, hmode, defaults.num_output_dimensions]
  have hne : ¬ n = get_num_outputs k s 0 := by rw [hcurr]; omega
  have hneg : ¬ n < 0 := by omega
  have hstep : set_num_outputs k s n =
      (s, [Event.error (ErrorMsg.classification_single_output k.LABELLED_REGRESSION)]) := by
    unfold set_num_outputs
    simp [hne, get_data_type, hmode, hneg, hn]
  exact ⟨hstep, fun x => by rw [hstep]⟩

/-- Witness for C5: `set_num_outputs(2)` in classification mode. -/
theorem set_num_outputs_classification_rejects_witness :
    (toyClassificationFilled.data_type = toyConsts.LABELLED_CLASSIFICATION ∧ (2 : Int) > 1) ∧
    (set_num_outputs toyConsts toyClassificationFilled 2 =
        (toyClassificationFilled,
          [Event.error (ErrorMsg.classification_single_output toyConsts.LABELLED_REGRESSION)]) ∧
      ∀ x : Int, get_num_outputs toyConsts (set_num_outputs toyConsts toyClassificationFilled 2).1 x =
        get_num_outputs toyConsts toyClassificationFilled x) :=
  ⟨⟨rfl, by decide⟩,
    set_num_outputs_classification_rejects toyConsts toyClassificationFilled 2 rfl (by decide)⟩

/-- C6: for every layer and every value outside `0 .. N-1`, negative values
included, `set_activation_function` logs exactly one error and returns the
state it was given, so none of the three stored activation functions changes.
Values `>= N` are stopped by `get_grt_neuron_type`; negative values reach the
trainer's own validation, assumed to accept no negative value. -/
theorem set_activation_function_rejects (k : Consts) {g : GRT} (s : mlp g) (value : Int)
    (layer : mlp_layer)
    (hval : ∀ v : Int, v < 0 → g.validateActivationFunction s.grt_mlp v = false)
    (hout : value < 0 ∨ value ≥ k.NUMBER_OF_ACTIVATION_FUNCTIONS) :
    (set_activation_function k s value layer).1 = s ∧
      ∃ msg, (set_activation_function k s value layer).2 = [Event.error msg] := by
  by_cases hge : value ≥ k.NUMBER_OF_ACTIVATION_FUNCTIONS
  · simp [set_activation_function, get_grt_neuron_type, hge]
  · have hneg : value < 0 := by
      rcases hout with h | h
      · exact h
      · exact absurd h hge
    simp [set_activation_function, get_grt_neuron_type, hge, hval value hneg]

/-- Witness for C6: the value -1 on the hidden layer. -/
theorem set_activation_function_rejects_witness :
    ((∀ v : Int, v < 0 →
        toyGRT.validateActivationFunction toyClassificationFilled.grt_mlp v = false) ∧
      ((-1 : Int) < 0 ∨ (-1 : Int) ≥ toyConsts.NUMBER_OF_ACTIVATION_FUNCTIONS)) ∧
    ((set_activation_function toyConsts toyClassificationFilled (-1) mlp_layer.LAYER_HIDDEN).1 =
        toyClassificationFilled ∧
      ∃ msg, (set_activation_function toyConsts toyClassificationFilled (-1)
        mlp_layer.LAYER_HIDDEN).2 = [Event.error msg]) :=
  have hval : ∀ v : Int, v < 0 →
      toyGRT.validateActivationFunction toyClassificationFilled.grt_mlp v = false := by
    intro v hv
    simp only [toyGRT, decide_eq_false_iff_not]
    omega
  ⟨⟨hval, Or.inl (by decide)⟩,
    set_activation_function_rejects toyConsts toyClassificationFilled (-1) mlp_layer.LAYER_HIDDEN
      hval (Or.inl (by decide))⟩

/-- C7: when the dataset matching the active mode holds no observation,
`train` logs the "no observations added" error and nothing else happens: no
call reaches the trainer, nothing is sent to an outlet, and the state after the
call (trainer with its trained flag, both datasets) is the state before it. -/
theorem train_empty (k : Consts) {g : GRT} (s : mlp g) (hk : k.WellFormed)
    (hempty : activeDatasetEmpty k s) :
    train k s = (s, [Event.error ErrorMsg.no_observations_added]) := by
  have h0 := numSamples_of_empty k s hk hempty
  simp [train, h0]

/-- Witness for C7: regression mode with an empty regression dataset. -/
theorem train_empty_witness :
    (toyConsts.WellFormed ∧ activeDatasetEmpty toyConsts toyRegressionState) ∧
    train toyConsts toyRegressionState =
      (toyRegressionState, [Event.error ErrorMsg.no_observations_added]) :=
  ⟨⟨toyConsts_wellFormed, Or.inr ⟨rfl, rfl⟩⟩,
    train_empty toyConsts toyRegressionState toyConsts_wellFormed (Or.inr ⟨rfl, rfl⟩)⟩

/-- C8: with a non-empty active dataset, `train` in classification mode makes
exactly the calls `init(getNumDimensions, num_hidden_neurons, getNumClasses,
the three stored activation functions)` and `train(classification_data)`, and
in regression mode exactly `init(getNumInputDimensions, num_hidden_neurons,
getNumTargetDimensions, the three stored activation functions)` and
`train(regression_data)`.  When the trainer's result is true, no error is
logged and the one message sent is the flag 1 on the train outlet; when it is
false, "training failed" is logged and the one message sent is the flag 0 on
the train outlet.  Only the trainer changes: both datasets after the call are
the datasets before it. -/
theorem train_nonempty (k : Consts) {g : GRT} (s : mlp g) (hk : k.WellFormed)
    (hne : activeDatasetNonEmpty k s) :
    (s.data_type = k.LABELLED_CLASSIFICATION →
      ((g.trainClassification
            (g.init s.grt_mlp (g.getNumDimensions s.classification_data) s.num_hidden_neurons
              (g.getNumClasses s.classification_data) s.input_activation_function
              s.hidden_activation_function s.output_activation_function)
            s.classification_data).1 = true →
        train k s =
          ({ s with grt_mlp := (g.trainClassification
                (g.init s.grt_mlp (g.getNumDimensions s.classification_data) s.num_hidden_neurons
                  (g.getNumClasses s.classification_data) s.input_activation_function
                  s.hidden_activation_function s.output_activation_function)
                s.classification_data).2 },
            [Event.call_init (g.getNumDimensions s.classification_data) s.num_hidden_neurons
                (g.getNumClasses s.classification_data) s.input_activation_function
                s.hidden_activation_function s.output_activation_function,
              Event.call_train_classification s.classification_data,
              Event.ToOutAnything 1 t_symbol.s_train [t_atom.A_INT 1]])) ∧
      ((g.trainClassification
            (g.init s.grt_mlp (g.getNumDimensions s.classification_data) s.num_hidden_neurons
              (g.getNumClasses s.classification_data) s.input_activation_function
              s.hidden_activation_function s.output_activation_function)
            s.classification_data).1 = false →
        train k s =
          ({ s with grt_mlp := (g.trainClassification
                (g.init s.grt_mlp (g.getNumDimensions s.classification_data) s.num_hidden_neurons
                  (g.getNumClasses s.classification_data) s.input_activation_function
                  s.hidden_activation_function s.output_activation_function)
                s.classification_data).2 },
            [Event.call_init (g.getNumDimensions s.classification_data) s.num_hidden_neurons
                (g.getNumClasses s.classification_data) s.input_activation_function
                s.hidden_activation_function s.output_activation_function,
              Event.call_train_classification s.classification_data,
              Event.error ErrorMsg.training_failed,
              Event.ToOutAnything 1 t_symbol.s_train [t_atom.A_INT 0]]))) ∧
    (s.data_type = k.LABELLED_REGRESSION →
      ((g.trainRegression
            (g.init s.grt_mlp (g.getNumInputDimensions s.regression_data) s.num_hidden_neurons
              (g.getNumTargetDimensions s.regression_data) s.input_activation_function
              s.hidden_activation_function s.output_activation_function)
            s.regression_data).1 = true →
        train k s =
          ({ s with grt_mlp := (g.trainRegression
                (g.init s.grt_mlp (g.getNumInputDimensions s.regression_data) s.num_hidden_neurons
                  (g.getNumTargetDimensions s.regression_data) s.input_activation_function
                  s.hidden_activation_function s.output_activation_function)
                s.regression_data).2 },
            [Event.call_init (g.getNumInputDimensions s.regression_data) s.num_hidden_neurons
                (g.getNumTargetDimensions s.regression_data) s.input_activation_function
                s.hidden_activation_function s.output_activation_function,
              Event.call_train_regression s.regression_data,
              Event.ToOutAnything 1 t_symbol.s_train [t_atom.A_INT 1]])) ∧
      ((g.trainRegression
            (g.init s.grt_mlp (g.getNumInputDimensions s.regression_data) s.num_hidden_neurons
              (g.getNumTargetDimensions s.regression_data) s.input_activation_function
              s.hidden_activation_function s.output_activation_function)
            s.regression_data).1 = false →
        train k s =
          ({ s with grt_mlp := (g.trainRegression
                (g.init s.grt_mlp (g.getNumInputDimensions s.regression_data) s.num_hidden_neurons
                  (g.getNumTargetDimensions s.regression_data) s.input_activation_function
                  s.hidden_activation_function s.output_activation_function)
                s.regression_data).2 },
            [Event.call_init (g.getNumInputDimensions s.regression_data) s.num_hidden_neurons
                (g.getNumTargetDimensions s.regression_data) s.input_activation_function
                s.hidden_activation_function s.output_activation_function,
              Event.call_train_regression s.regression_data,
              Event.error ErrorMsg.training_failed,
              Event.ToOutAnything 1 t_symbol.s_train [t_atom.A_INT 0]]))) ∧
    (train k s).1.classification_data = s.classification_data ∧
    (train k s).1.regression_data = s.regression_data := by
  have h0 := numSamples_of_nonEmpty k s hk hne
  obtain ⟨hd, _, _, _, _⟩ := hk
  have hne2 : ¬ k.LABELLED_REGRESSION = k.LABELLED_CLASSIFICATION := fun h => hd h.symm
  refine ⟨fun hm => ⟨fun ht => ?_, fun ht => ?_⟩, fun hm => ⟨fun ht => ?_, fun ht => ?_⟩, ?_, ?_⟩
  · simp [train, h0, get_data_type, hm, ht, boolAtom]
  · simp [train, h0, get_data_type, hm, ht, boolAtom]
  · simp [train, h0, get_data_type, hm, hne2, ht, boolAtom]
  · simp [train, h0, get_data_type, hm, hne2, ht, boolAtom]
  · simp [train, h0]
  · simp [train, h0]

/-- Witness for C8: in classification mode with ten hidden neurons, four
observations of two classes make the trainer succeed and the flag is 1; four
observations of a single class make it fail, the error is logged and the flag
is 0. -/
theorem train_nonempty_witness :
    (toyConsts.WellFormed ∧ activeDatasetNonEmpty toyConsts toyClassificationFilled ∧
      activeDatasetNonEmpty toyConsts toyClassificationOneClass) ∧
    train toyConsts toyClassificationFilled =
      ({ toyClassificationFilled with
          grt_mlp := ⟨true, true, 2, 2, 10, 100, [0, 0], 0, []⟩ },
        [Event.call_init 2 10 2 0 1 0,
          Event.call_train_classification toyClassificationFilled.classification_data,
          Event.ToOutAnything 1 t_symbol.s_train [t_atom.A_INT 1]]) ∧
    train toyConsts toyClassificationOneClass =
      ({ toyClassificationOneClass with
          grt_mlp := ⟨false, false, 2, 1, 10, 100, [], 0, []⟩ },
        [Event.call_init 2 10 1 0 1 0,
          Event.call_train_classification toyClassificationOneClass.classification_data,
          Event.error ErrorMsg.training_failed,
          Event.ToOutAnything 1 t_symbol.s_train [t_atom.A_INT 0]]) :=
  ⟨⟨toyConsts_wellFormed, Or.inl ⟨rfl, by decide⟩, Or.inl ⟨rfl, by decide⟩⟩,
    (((train_nonempty toyConsts toyClassificationFilled toyConsts_wellFormed
      (Or.inl ⟨rfl, by decide⟩)).1 rfl).1 rfl).trans rfl,
    (((train_nonempty toyConsts toyClassificationOneClass toyConsts_wellFormed
      (Or.inl ⟨rfl, by decide⟩)).1 rfl).2 rfl).trans rfl⟩

/-- C9: `map` checks its preconditions in order.  With an empty active dataset
the one event of the call is the "no observations added" error, whether or not
the trainer is trained; with a non-empty active dataset and an untrained
trainer it is the "model has not been trained" error.  In both cases the state
is returned as it was, so no prediction is made and nothing reaches an
outlet. -/
theorem map_preconditions (k : Consts) {g : GRT} (s : mlp g) (argv : List (t_atom g.Float))
    (hk : k.WellFormed) :
    (activeDatasetEmpty k s →
      map k s argv = some (s, [Event.error ErrorMsg.no_observations_added])) ∧
    (activeDatasetNonEmpty k s → g.getTrained s.grt_mlp = false →
      map k s argv = some (s, [Event.error ErrorMsg.model_not_trained])) := by
  refine ⟨fun hempty => ?_, fun hne htr => ?_⟩
  · have h0 := numSamples_of_empty k s hk hempty
    simp [map, h0]
  · have h0 := numSamples_of_nonEmpty k s hk hne
    simp [map, h0, htr]

/-- Witness for C9: an empty regression dataset with a trained trainer reports
the missing observations; a filled one with an untrained trainer reports the
missing training. -/
theorem map_preconditions_witness :
    toyConsts.WellFormed ∧
    map toyConsts { toyRegressionState with grt_mlp := toyTrained } toyInput =
      some ({ toyRegressionState with grt_mlp := toyTrained },
        [Event.error ErrorMsg.no_observations_added]) ∧
    map toyConsts toyRegressionFilled toyInput =
      some (toyRegressionFilled, [Event.error ErrorMsg.model_not_trained]) :=
  ⟨toyConsts_wellFormed,
    (map_preconditions toyConsts { toyRegressionState with grt_mlp := toyTrained }
      toyInput toyConsts_wellFormed).1 (Or.inr ⟨rfl, rfl⟩),
    (map_preconditions toyConsts toyRegressionFilled toyInput
      toyConsts_wellFormed).2 (Or.inr ⟨rfl, by decide⟩) rfl⟩

/-- C10 (the code departs from the claim): on a trained model with a non-empty
active dataset, an input shorter than the trainer's input-neuron count is
logged as an error, but the call does not stop there: every atom of the input
is read into the query vector, the trainer's prediction routine is invoked on
that query, and the trainer it leaves behind is stored. -/
theorem map_wrong_length_predicts (k : Consts) {g : GRT} (s : mlp g)
    (argv : List (t_atom g.Float)) (hk : k.WellFormed) (hne : activeDatasetNonEmpty k s)
    (htr : g.getTrained s.grt_mlp = true)
    (hlen : argv.length < g.getNumInputNeurons s.grt_mlp) (hint : argv.length < 2 ^ 31) :
    ∃ (query : List g.Double) (rest : List (Event g)),
      map_loop g argv argv.length 0 (List.replicate (g.getNumInputNeurons s.grt_mlp) g.zero) =
        some query ∧
      map k s argv =
        some ({ s with grt_mlp := (g.predict s.grt_mlp query).2 },
          Event.error (ErrorMsg.invalid_input_length (g.getNumInputNeurons s.grt_mlp) argv.length)
            :: ((List.range argv.length).map Event.read_input ++
                Event.call_predict query :: rest)) := by
  have h0 := numSamples_of_nonEmpty k s hk hne
  have hcast : toUInt32 (argv.length : Int) = argv.length := by
    have h := toUInt32_of_nonneg (argv.length : Int) (by omega) (by omega)
    exact_mod_cast h
  obtain ⟨q, hq, _⟩ := map_loop_in_bounds g argv argv.length 0
    (List.replicate (g.getNumInputNeurons s.grt_mlp) g.zero) (by omega)
    (by rw [List.length_replicate]; omega)
  have hmis : argv.length ≠ g.getNumInputNeurons s.grt_mlp := by omega
  by_cases hp : (g.predict s.grt_mlp q).1 = false
  · refine ⟨q, [Event.error ErrorMsg.unable_to_map_input], hq, ?_⟩
    simp [map, h0, htr, hcast, hq, hmis, hp]
  · refine ⟨q, map_output s (g.predict s.grt_mlp q).2, hq, ?_⟩
    simp [map, h0, htr, hcast, hq, hmis, hp]

/-- Witness for C10: a trainer trained for two inputs receives one atom; the
error is logged, the atom is read, the prediction runs on the padded query and
its result is sent to outlet 0. -/
theorem map_wrong_length_predicts_witness :
    (toyConsts.WellFormed ∧ activeDatasetNonEmpty toyConsts toyTrainedState ∧
      toyGRT.getTrained toyTrainedState.grt_mlp = true ∧
      toyInput.length <
        toyGRT.getNumInputNeurons toyTrainedState.grt_mlp) ∧
    (∃ (query : List toyGRT.Double) (rest : List (Event toyGRT)),
      map_loop toyGRT toyInput toyInput.length 0
          (List.replicate (toyGRT.getNumInputNeurons toyTrainedState.grt_mlp) toyGRT.zero) =
        some query ∧
      map toyConsts toyTrainedState toyInput =
        some ({ toyTrainedState with grt_mlp := (toyGRT.predict toyTrainedState.grt_mlp query).2 },
          Event.error (ErrorMsg.invalid_input_length
              (toyGRT.getNumInputNeurons toyTrainedState.grt_mlp)
              toyInput.length)
            :: ((List.range toyInput.length).map
                  Event.read_input ++
                Event.call_predict query :: rest))) ∧
    map toyConsts toyTrainedState toyInput =
      some ({ toyTrainedState with grt_mlp := { toyTrained with regressionData := [7] } },
        [Event.error (ErrorMsg.invalid_input_length 2 1), Event.read_input 0,
          Event.call_predict ([7, 0] : List Int), Event.ToOutList 0 toyInput]) :=
  ⟨⟨toyConsts_wellFormed, Or.inr ⟨rfl, by decide⟩, rfl, by decide⟩,
    map_wrong_length_predicts toyConsts toyTrainedState toyInput toyConsts_wellFormed
      (Or.inr ⟨rfl, by decide⟩) rfl (by decide) (by decide),
    rfl⟩

/-! ## Helper lemmas on the likelihood list -/

/-- C12 (the code departs from the claim): `get_min_epochs` reads the trainer's
maximum epoch count.  After `set_min_epochs(a)`, with a trainer whose maximum
is not touched by setting the minimum, it yields the maximum epoch count the
trainer had before the call, the same value as `get_max_epochs`, and not
`a`. -/
theorem get_min_epochs_reads_max {g : GRT} (s : mlp g) (a : Int)
    (hframe : g.getMaxNumEpochs (g.setMinNumEpochs s.grt_mlp (toUInt32 a)).2 =
      g.getMaxNumEpochs s.grt_mlp) :
    get_min_epochs (set_min_epochs s a).1 = toInt32 (g.getMaxNumEpochs s.grt_mlp) ∧
      get_min_epochs (set_min_epochs s a).1 = get_max_epochs s := by
  have h : (set_min_epochs s a).1.grt_mlp = (g.setMinNumEpochs s.grt_mlp (toUInt32 a)).2 := by
    unfold set_min_epochs
    by_cases hres : (g.setMinNumEpochs s.grt_mlp (toUInt32 a)).1 = false <;> simp [hres]
  simp only [get_min_epochs, get_max_epochs, h, hframe, and_self]

/-- Witness for C12: minimum 10 and maximum 100; `set_min_epochs(5)` is accepted
without an error and stores 5, and `get_min_epochs` then yields 100. -/
theorem get_min_epochs_reads_max_witness :
    toyGRT.getMaxNumEpochs
        (toyGRT.setMinNumEpochs toyRegressionState.grt_mlp (toUInt32 5)).2 =
      toyGRT.getMaxNumEpochs toyRegressionState.grt_mlp ∧
    (get_min_epochs (set_min_epochs toyRegressionState 5).1 =
        toInt32 (toyGRT.getMaxNumEpochs toyRegressionState.grt_mlp) ∧
      get_min_epochs (set_min_epochs toyRegressionState 5).1 =
        get_max_epochs toyRegressionState) ∧
    (toyGRT.setMinNumEpochs toyRegressionState.grt_mlp (toUInt32 5)).1 = true ∧
    (set_min_epochs toyRegressionState 5).2 = [] ∧
    (set_min_epochs toyRegressionState 5).1.grt_mlp = { toyUntrained with minNumEpochs := 5 } ∧
    get_min_epochs (set_min_epochs toyRegressionState 5).1 = 100 :=
  ⟨rfl, get_min_epochs_reads_max toyRegressionState 5 rfl, rfl, rfl, rfl, rfl⟩

/-- C13: `read_specialised_dataset(path)` returns true exactly when the
classification load or, that one failing, the regression load succeeds.  If
the classification load succeeds the mode becomes classification and the one
library call made is that load, the regression dataset being left as it was;
if only the regression load succeeds the mode becomes regression; if both fail
the mode is unchanged. -/
theorem read_specialised_dataset_result (k : Consts) {g : GRT} (s : mlp g) (path : g.Path) :
    ((read_specialised_dataset k s path).1 = true ↔
      ((g.clsLoadDatasetFromFile s.classification_data path).1 = true ∨
        (g.regLoadDatasetFromFile s.regression_data path).1 = true)) ∧
    ((g.clsLoadDatasetFromFile s.classification_data path).1 = true →
      get_mode (read_specialised_dataset k s path).2.1 = k.LABELLED_CLASSIFICATION ∧
        (read_specialised_dataset k s path).2.2 = [Event.call_load_classification path] ∧
        (read_specialised_dataset k s path).2.1.regression_data = s.regression_data) ∧
    ((g.clsLoadDatasetFromFile s.classification_data path).1 = false →
      (g.regLoadDatasetFromFile s.regression_data path).1 = true →
      get_mode (read_specialised_dataset k s path).2.1 = k.LABELLED_REGRESSION) ∧
    ((g.clsLoadDatasetFromFile s.classification_data path).1 = false →
      (g.regLoadDatasetFromFile s.regression_data path).1 = false →
      get_mode (read_specialised_dataset k s path).2.1 = get_mode s) := by
  cases hc : (g.clsLoadDatasetFromFile s.classification_data path).1 <;>
    cases hr : (g.regLoadDatasetFromFile s.regression_data path).1 <;>
    simp [read_specialised_dataset, hc, hr, get_mode, get_data_type, set_data_type]

/-- Witness for C13: from classification mode, file 1 fails to load as a
classification dataset and loads as a regression dataset, so the call returns
true in regression mode; file 7 loads as neither, so the call returns false
and the mode stays. -/
theorem read_specialised_dataset_result_witness :
    ((read_specialised_dataset toyConsts toyClassificationFilled (1 : Nat)).1 = true ↔
      ((toyGRT.clsLoadDatasetFromFile toyClassificationFilled.classification_data (1 : Nat)).1 =
          true ∨
        (toyGRT.regLoadDatasetFromFile toyClassificationFilled.regression_data (1 : Nat)).1 =
          true)) ∧
    (read_specialised_dataset toyConsts toyClassificationFilled (1 : Nat)).1 = true ∧
    get_mode (read_specialised_dataset toyConsts toyClassificationFilled (1 : Nat)).2.1 =
      toyConsts.LABELLED_REGRESSION ∧
    (read_specialised_dataset toyConsts toyClassificationFilled (7 : Nat)).1 = false ∧
    get_mode (read_specialised_dataset toyConsts toyClassificationFilled (7 : Nat)).2.1 =
      toyConsts.LABELLED_CLASSIFICATION :=
  ⟨(read_specialised_dataset_result toyConsts toyClassificationFilled (1 : Nat)).1,
    rfl, rfl, rfl, rfl⟩

/-- C14: in a state whose stored mode is neither classification nor regression
and whose regression dataset is non-empty, `train` makes no call on the
trainer and returns the state it was given (trainer with its trained flag and
both datasets); its events are exactly the "training failed" error followed by
one flag 0 on the train outlet. -/
theorem train_unknown_mode (k : Consts) {g : GRT} (s : mlp g)
    (hc : s.data_type ≠ k.LABELLED_CLASSIFICATION) (hr : s.data_type ≠ k.LABELLED_REGRESSION)
    (hne : g.regGetNumSamples s.regression_data ≠ 0) :
    train k s =
        (s, [Event.error ErrorMsg.training_failed,
              Event.ToOutAnything 1 t_symbol.s_train [t_atom.A_INT 0]]) ∧
      (train k s).2.any Event.isTrainerCall = false := by
  have h0 : numSamples k s ≠ 0 := by
    simpa [numSamples, get_data_type, hc] using hne
  have hstep : train k s =
      (s, [Event.error ErrorMsg.training_failed,
            Event.ToOutAnything 1 t_symbol.s_train [t_atom.A_INT 0]]) := by
    simp [train, h0, get_data_type, hc, hr, boolAtom]
  refine ⟨hstep, ?_⟩
  rw [hstep]
  rfl

/-- Witness for C14: the state `set_mode(4)` produces from a filled regression
state (4 being the count of data types, which `set_mode` lets through). -/
theorem train_unknown_mode_witness :
    ((set_mode toyConsts toyRegressionFilled 4).1.data_type ≠ toyConsts.LABELLED_CLASSIFICATION ∧
      (set_mode toyConsts toyRegressionFilled 4).1.data_type ≠ toyConsts.LABELLED_REGRESSION ∧
      toyGRT.regGetNumSamples (set_mode toyConsts toyRegressionFilled 4).1.regression_data ≠ 0) ∧
    (train toyConsts (set_mode toyConsts toyRegressionFilled 4).1 =
        ((set_mode toyConsts toyRegressionFilled 4).1,
          [Event.error ErrorMsg.training_failed,
            Event.ToOutAnything 1 t_symbol.s_train [t_atom.A_INT 0]]) ∧
      (train toyConsts (set_mode toyConsts toyRegressionFilled 4).1).2.any
        Event.isTrainerCall = false) :=
  ⟨⟨by decide, by decide, by decide⟩,
    train_unknown_mode toyConsts (set_mode toyConsts toyRegressionFilled 4).1 (by decide)
      (by decide) (by decide)⟩

end ml
